import Mathlib

/-!
# Embedding Cluster Analytics Engine — verification development

Shallow embedding of the analytical pipeline of `visualize_clusters.py` and
`visualize_with_clustering.py` (SWIFT message cluster visualization POC):
the two source adapters, the dimensionality-reduction wrapper, the k-means
clustering wrapper, and the report-builder views, together with theorems
settling the specification claims about them.

Python floats are modelled as `ℚ`, Python ints as `ℤ`/`ℕ`, Python `None`
via `Option`, raised exceptions via `Except PyErr`.
-/
/-- A Python runtime error raised during the run (uncaught exceptions
propagate and abort the process). -/
inductive PyErr where
  | valueError (msg : String)
  | keyError (msg : String)
  | requestsError (msg : String)
  deriving DecidableEq, Repr

/-- Outcome of an HTTP call made with `requests`: either the call raised a
transport-level exception, or it returned a response with a status code and
a body of type `β`. -/
inductive Fetched (β : Type) where
  | exn (e : PyErr)
  | response (status : ℤ) (body : β)
  deriving DecidableEq, Repr

instance instDecEqExcept {ε α : Type} [DecidableEq ε] [DecidableEq α] :
    DecidableEq (Except ε α) := fun
  | .ok a, .ok b =>
      if h : a = b then .isTrue (by rw [h]) else .isFalse (by simp [h])
  | .ok _, .error _ => .isFalse (by simp)
  | .error _, .ok _ => .isFalse (by simp)
  | .error e, .error f =>
      if h : e = f then .isTrue (by rw [h]) else .isFalse (by simp [h])

/-- An embedding vector: Python list of floats, modelled over `ℚ`. -/
abbrev Vec := List ℚ

/-- One hit `_source` object of the ElasticSearch `vector_embeddings` index,
as consumed by `fetch_vectors_from_elasticsearch`. -/
structure EsHit where
  id : String
  documentType : String
  embedding : Vec
  clusterId : Option String
  referenceId : String
  contentPreview : Option String
  deriving DecidableEq, Repr

/-- Body of an ElasticSearch `_search` response: either a well-formed hit
list, or a body on which `response.json()["hits"]["hits"]` (or field access
on a hit) raises. -/
inductive EsBody where
  | hits (hs : List EsHit)
  | malformed
  deriving DecidableEq, Repr

/-- The per-vector dict built by `fetch_vectors_from_elasticsearch`
(`visualize_clusters.py`, lines 43-50). -/
structure VectorRecord where
  id : String
  type : String
  embedding : Vec
  clusterId : Option String
  referenceId : String
  preview : String
  deriving DecidableEq, Repr

/-- `visualize_clusters.py:41-50` — one record per hit. `preview` is
`source.get("contentPreview", "")[:50]`. -/
def hitToVector (h : EsHit) : VectorRecord :=
  { id := h.id
    type := h.documentType
    embedding := h.embedding
    clusterId := h.clusterId
    referenceId := h.referenceId
    preview := (h.contentPreview.getD "").take 50 }

/-- `visualize_clusters.py:21-53`, `fetch_vectors_from_elasticsearch`.
A raised transport exception propagates; a non-200 status is logged and the
function returns the empty list; a 200 response whose body cannot be read as
a hit batch raises (`KeyError`); otherwise one record per hit is returned. -/
def fetch_vectors_from_elasticsearch (r : Fetched EsBody) :
    Except PyErr (List VectorRecord) :=
  match r with
  | .exn e => .error e
  | .response status body =>
    if status ≠ 200 then .ok []
    else
      match body with
      | .malformed => .error (.keyError "hits")
      | .hits hs => .ok (hs.map hitToVector)

/-- One message object of the `/api/v2/messages` response, as consumed by
`fetch_messages_from_api`. -/
structure ApiMsg where
  id : String
  messageType : String
  senderId : String
  receiverId : String
  status : String
  templateId : Option String
  clusterId : Option String
  deriving DecidableEq, Repr

/-- Body of the messages-API response: a well-formed message array, or a
body on which JSON decoding / field access raises. -/
inductive ApiBody where
  | messages (ms : List ApiMsg)
  | malformed
  deriving DecidableEq, Repr

/-- The per-message metadata dict built by `fetch_messages_from_api`
(`visualize_clusters.py`, lines 66-74). -/
structure MsgMeta where
  messageType : String
  senderId : String
  receiverId : String
  status : String
  templateId : Option String
  clusterId : Option String
  deriving DecidableEq, Repr

/-- Python-dict assignment `d[k] = v` on an insertion-ordered association
list: replaces the first binding of `k` in place, else appends. -/
def dictSet : List (String × MsgMeta) → String → MsgMeta → List (String × MsgMeta)
  | [], k, v => [(k, v)]
  | (k', v') :: rest, k, v =>
      if k' = k then (k, v) :: rest else (k', v') :: dictSet rest k v

/-- `visualize_clusters.py:55-77`, `fetch_messages_from_api`.
A raised transport exception propagates; a non-200 status is logged and the
function returns the empty mapping; a 200 response with an unreadable body
raises; otherwise the id-keyed metadata map is built. -/
def fetch_messages_from_api (r : Fetched ApiBody) :
    Except PyErr (List (String × MsgMeta)) :=
  match r with
  | .exn e => .error e
  | .response status body =>
    if status ≠ 200 then .ok []
    else
      match body with
      | .malformed => .error (.keyError "id")
      | .messages ms =>
        .ok (ms.foldl (fun m msg =>
          dictSet m msg.id
            { messageType := msg.messageType
              senderId := msg.senderId
              receiverId := msg.receiverId
              status := msg.status
              templateId := msg.templateId
              clusterId := msg.clusterId }) [])

/-- `n_clusters` selection of `perform_clustering`
(`visualize_with_clustering.py:77-80`): the caller-supplied count if any,
else `min(5, max(2, n_samples // 10))`. -/
def chooseK (n : ℕ) (kArg : Option ℕ) : ℕ :=
  match kArg with
  | some k => k
  | none => min 5 (max 2 (n / 10))

/-! ## Dimensionality Reduction Engine (`reduce_dimensions`) -/
/-- Number of features of the embedding matrix (`X.shape[1]`): the length of
the first row. -/
def dimOf (emb : List Vec) : ℕ := (emb.headD []).length

/-- Whether all rows of the embedding matrix have the same length; a ragged
input makes the numpy/sklearn pipeline raise. -/
def rectangular (emb : List Vec) : Bool :=
  emb.all (fun v => v.length = dimOf emb)

/-- The effective-neighborhood-size argument passed to t-SNE at both call
sites (`visualize_clusters.py:87`, `visualize_with_clustering.py:105`):
`perplexity = min(30, len(embeddings) - 1)`. -/
def tsnePerplexity (n : ℤ) : ℤ := min 30 (n - 1)

/-- Vector sum (numpy elementwise `+`; rows of equal length). -/
def addVec (a b : Vec) : Vec := List.zipWith (· + ·) a b

/-- Vector difference (numpy elementwise `-`). -/
def subVec (a b : Vec) : Vec := List.zipWith (· - ·) a b

/-- Scalar multiple of a vector. -/
def scaleVec (c : ℚ) (v : Vec) : Vec := v.map (fun x => c * x)

/-- Column-wise mean of the data matrix. -/
def meanVec (data : List Vec) : Vec :=
  scaleVec (1 / (data.length : ℚ))
    (data.foldl addVec (List.replicate (dimOf data) 0))

/-- `PCA(n_components=nc).fit_transform(data)`: the fitted model centers the
data and projects each row onto the fitted principal components, so row `i`
of the output is the image of row `i` of the input. The components come
from an SVD with no exact rational representation, so the fitted per-row
projection is modelled as centering followed by truncation to the first
`nc` coordinates; no claim depends on the numeric component directions,
only on the row-for-row shape of `fit_transform`. -/
def pcaRows (data : List Vec) (nc : ℕ) : List Vec :=
  data.map (fun v => (subVec v (meanVec data)).take nc)

/-- `TSNE(...).fit_transform(data)`: the seeded optimization produces one
output row per input row (row `i` embeds input `i`). The iterative
optimization has no exact rational representation, so the per-row map is
modelled as centering followed by truncation to the first `nc` coordinates;
no claim depends on the numeric coordinates, only on the row-for-row shape
of `fit_transform`. -/
def tsneRows (data : List Vec) (nc : ℕ) : List Vec :=
  data.map (fun v => (subVec v (meanVec data)).take nc)

/-- `visualize_clusters.py:79-97`, `reduce_dimensions`. A ragged matrix
raises in numpy/sklearn; the t-SNE branch is validated by sklearn
(perplexity must be positive and strictly less than `n_samples`); the PCA
branch is validated by sklearn (`n_components` must not exceed
`min(n_samples, n_features)`); an unknown method raises
`ValueError(f"Unknown method: {method}")`. -/
def reduce_dimensions (emb : List Vec) (method : String) (nc : ℕ) :
    Except PyErr (List Vec) :=
  if rectangular emb = false then
    .error (.valueError "setting an array element with a sequence")
  else if method = "tsne" then
    let p := tsnePerplexity emb.length
    if p ≤ 0 then .error (.valueError "perplexity must be positive")
    else if (emb.length : ℤ) ≤ p then
      .error (.valueError "perplexity must be less than n_samples")
    else .ok (tsneRows emb nc)
  else if method = "pca" then
    if min emb.length (dimOf emb) < nc then
      .error (.valueError "n_components must not exceed min of n_samples and n_features")
    else .ok (pcaRows emb nc)
  else .error (.valueError "Unknown method")

/-! ## Statistics view (`create_statistics_view`) and the run's stats path -/
/-- Python `d[k] = d.get(k, 0) + 1` on an insertion-ordered counter dict:
increments the first binding of `k` in place, else appends `(k, 1)`. -/
def bump : List (String × ℕ) → String → List (String × ℕ)
  | [], k => [(k, 1)]
  | (k', v) :: rest, k =>
      if k' = k then (k', v + 1) :: rest else (k', v) :: bump rest k

/-- Total of all counts in a counter dict. -/
def sumCounts (c : List (String × ℕ)) : ℕ := (c.map (·.2)).sum

/-- `messages_map.get(vec["referenceId"], {})`: the metadata looked up for a
record, `none` when the reference id is unmatched (the empty dict). -/
def msgFor (mm : List (String × MsgMeta)) (v : VectorRecord) : Option MsgMeta :=
  mm.lookup v.referenceId

/-- The loop body of `create_statistics_view`
(`visualize_clusters.py:323-333`): bumps the message-type counter (with
"UNKNOWN" for an unmatched record), the cluster counter (only when the
record's `clusterId` is not `None`), and the sender counter (with "UNKNOWN"
for an unmatched record). The accumulator is
`(type_counts, cluster_counts, sender_counts)`. -/
def statsFold (mm : List (String × MsgMeta))
    (acc : List (String × ℕ) × List (String × ℕ) × List (String × ℕ))
    (v : VectorRecord) :
    List (String × ℕ) × List (String × ℕ) × List (String × ℕ) :=
  let msgType := match msgFor mm v with
    | some m => m.messageType
    | none => "UNKNOWN"
  let sender := match msgFor mm v with
    | some m => m.senderId
    | none => "UNKNOWN"
  (bump acc.1 msgType,
   (match v.clusterId with
    | some cid => bump acc.2.1 cid
    | none => acc.2.1),
   bump acc.2.2 sender)

/-- Stable insertion into a count-descending list, after all entries of
count ≥ the new entry's (matching Python's stable
`sorted(..., key=count, reverse=True)`). -/
def insertByCountDesc (p : String × ℕ) :
    List (String × ℕ) → List (String × ℕ)
  | [] => [p]
  | q :: rest =>
      if q.2 ≤ p.2 then p :: q :: rest else q :: insertByCountDesc p rest

/-- `sorted(sender_counts.items(), key=lambda x: x[1], reverse=True)`. -/
def sortByCountDesc (l : List (String × ℕ)) : List (String × ℕ) :=
  l.foldr insertByCountDesc []

/-- The aggregations of the statistics dashboard
(`visualize_clusters.py:315-403`): the four chart data sets plus the raw
sender counter. -/
structure StatsView where
  type_counts : List (String × ℕ)
  cluster_counts : List (String × ℕ)
  sender_counts : List (String × ℕ)
  top_senders : List (String × ℕ)
  doc_types : List (String × ℕ)
  deriving DecidableEq, Repr

/-- `visualize_clusters.py:315-403`, `create_statistics_view`: one pass over
the records fills the type/cluster/sender counters, the top-10 senders are
the sender counts sorted by count descending and truncated, and a second
pass fills the document-kind counter. -/
def create_statistics_view (vectors_data : List VectorRecord)
    (messages_map : List (String × MsgMeta)) : StatsView :=
  let tcs := vectors_data.foldl (statsFold messages_map) ([], [], [])
  { type_counts := tcs.1
    cluster_counts := tcs.2.1
    sender_counts := tcs.2.2
    top_senders := (sortByCountDesc tcs.2.2).take 10
    doc_types := vectors_data.foldl (fun d v => bump d v.type) [] }

/-- The statistics path of `main` (`visualize_clusters.py:405-457`, with the
statistics view selected): fetch the vectors (a raised exception is fatal),
stop with no view when no vectors were fetched, fetch the metadata (a
raised exception is fatal), then build the statistics view. -/
def runStats (es : Fetched EsBody) (api : Fetched ApiBody) :
    Except PyErr (Option StatsView) :=
  match fetch_vectors_from_elasticsearch es with
  | .error e => .error e
  | .ok vectors =>
    if vectors.isEmpty then .ok none
    else
      match fetch_messages_from_api api with
      | .error e => .error e
      | .ok mm => .ok (some (create_statistics_view vectors mm))

/-- Five well-formed store hits used as concrete run inputs. -/
def sampleHits : List EsHit :=
  [ { id := "e1", documentType := "MESSAGE", embedding := [1],
      clusterId := none, referenceId := "m1", contentPreview := none },
    { id := "e2", documentType := "MESSAGE", embedding := [2],
      clusterId := none, referenceId := "m2", contentPreview := none },
    { id := "e3", documentType := "MESSAGE", embedding := [3],
      clusterId := none, referenceId := "m3", contentPreview := none },
    { id := "e4", documentType := "MESSAGE", embedding := [4],
      clusterId := none, referenceId := "m4", contentPreview := none },
    { id := "e5", documentType := "TEMPLATE", embedding := [5],
      clusterId := none, referenceId := "m5", contentPreview := none } ]

/-! ## Scatter and comparison views -/
/-- The per-point hover fields of the scatter view
(`visualize_clusters.py:131-141`). -/
structure HoverInfo where
  idPrefix : String
  msgType : String
  sender : String
  receiver : String
  status : String
  cluster : String
  template : String
  deriving DecidableEq, Repr

/-- Default hover record (used only as a `getD` fallback in statements). -/
def dummyHover : HoverInfo :=
  { idPrefix := "", msgType := "", sender := "", receiver := "",
    status := "", cluster := "", template := "" }

/-- The figure data of the 2D scatter view
(`visualize_clusters.py:99-174`): per-point coordinates, marker data and
hover data. The plotly/HTML mechanics around these are out of scope. -/
structure ScatterView where
  x : List ℚ
  y : List ℚ
  sizes : List ℕ
  symbols : List String
  colorNames : List String
  colorValues : List ℕ
  hovers : List HoverInfo
  deriving DecidableEq, Repr

/-- The color key of a record: `messages_map.get(referenceId, {})
.get("messageType", "UNKNOWN")` (`visualize_clusters.py:116-120`). -/
def scatterColorName (mm : List (String × MsgMeta)) (v : VectorRecord) :
    String :=
  match msgFor mm v with
  | some m => m.messageType
  | none => "UNKNOWN"

/-- The hover fields of a record (`visualize_clusters.py:131-141`):
`dict.get` placeholders "N/A" for unmatched metadata, "None" for an absent
`clusterId`, and "None" for a falsy (`None` or empty) `templateId`. -/
def scatterHover (mm : List (String × MsgMeta)) (v : VectorRecord) :
    HoverInfo :=
  { idPrefix := v.referenceId.take 12
    msgType := scatterColorName mm v
    sender := match msgFor mm v with
      | some m => m.senderId
      | none => "N/A"
    receiver := match msgFor mm v with
      | some m => m.receiverId
      | none => "N/A"
    status := match msgFor mm v with
      | some m => m.status
      | none => "N/A"
    cluster := match v.clusterId with
      | some c => c
      | none => "None"
    template := match msgFor mm v with
      | some m =>
        match m.templateId with
        | some t => if t = "" then "None" else t.take 12
        | none => "None"
      | none => "None" }

/-- `visualize_clusters.py:99-174`, `create_2d_visualization`: reduce the
embedding matrix to 2D, then build one marker/hover entry per record.
`pyHash` is the running process's string-hash function (Python randomizes
string hashing per process via `PYTHONHASHSEED`); the marker color values
are `hash(messageType) % 360`, modelled with a nonnegative hash. -/
def create_2d_visualization (pyHash : String → ℕ)
    (vectors_data : List VectorRecord) (mm : List (String × MsgMeta))
    (method : String) : Except PyErr ScatterView :=
  match reduce_dimensions (vectors_data.map (fun v => v.embedding)) method 2 with
  | .error e => .error e
  | .ok reduced =>
    .ok { x := reduced.map (fun r => r.getD 0 0)
          y := reduced.map (fun r => r.getD 1 0)
          sizes := vectors_data.map (fun v =>
            if v.type = "TEMPLATE" then 20 else 10)
          symbols := vectors_data.map (fun v =>
            if v.type = "TEMPLATE" then "star" else "circle")
          colorNames := vectors_data.map (scatterColorName mm)
          colorValues := vectors_data.map (fun v =>
            pyHash (scatterColorName mm v) % 360)
          hovers := vectors_data.map (scatterHover mm) }

/-- The figure data of the comparison view
(`visualize_clusters.py:256-313`): both projections' coordinates, the
shared per-point color values `hash(messageType) % 360`, and the titles. -/
structure ComparisonView where
  tsne_x : List ℚ
  tsne_y : List ℚ
  pca_x : List ℚ
  pca_y : List ℚ
  colors : List ℕ
  subplot_titles : List String
  title : String
  deriving DecidableEq, Repr

/-- `visualize_clusters.py:256-313`, `create_cluster_comparison`: reduce the
same embedding matrix with both methods and color every point by
`hash(messageType) % 360` under the process hash function `pyHash`. -/
def create_cluster_comparison (pyHash : String → ℕ)
    (vectors_data : List VectorRecord) (mm : List (String × MsgMeta)) :
    Except PyErr ComparisonView :=
  match reduce_dimensions (vectors_data.map (fun v => v.embedding)) "tsne" 2 with
  | .error e => .error e
  | .ok tsne2 =>
    match reduce_dimensions (vectors_data.map (fun v => v.embedding)) "pca" 2 with
    | .error e => .error e
    | .ok pca2 =>
      .ok { tsne_x := tsne2.map (fun r => r.getD 0 0)
            tsne_y := tsne2.map (fun r => r.getD 1 0)
            pca_x := pca2.map (fun r => r.getD 0 0)
            pca_y := pca2.map (fun r => r.getD 1 0)
            colors := vectors_data.map (fun v =>
              pyHash (scatterColorName mm v) % 360)
            subplot_titles := ["t-SNE Projection", "PCA Projection"]
            title := "Cluster Comparison: t-SNE vs PCA" }

/-- The comparison view without its hash-derived color values. -/
def ComparisonView.stripColors (v : ComparisonView) :
    List ℚ × List ℚ × List ℚ × List ℚ × List String × String :=
  (v.tsne_x, v.tsne_y, v.pca_x, v.pca_y, v.subplot_titles, v.title)

/-- The scatter view without its hash-derived color values. -/
def ScatterView.stripColorValues (v : ScatterView) :
    List ℚ × List ℚ × List ℕ × List String × List String × List HoverInfo :=
  (v.x, v.y, v.sizes, v.symbols, v.colorNames, v.hovers)

/-- Two message-type records at x = 1 and x = 3, both unmatched in the
metadata map, used as concrete view inputs. -/
def sampleVectors : List VectorRecord :=
  [ { id := "e1", type := "MESSAGE", embedding := [1, 0], clusterId := none,
      referenceId := "m1", preview := "" },
    { id := "e2", type := "MESSAGE", embedding := [3, 0], clusterId := none,
      referenceId := "m2", preview := "" } ]

/-- The scatter view built from `sampleVectors` with the all-zero hash. -/
def sampleScatter : ScatterView :=
  { x := [-1, 1], y := [0, 0], sizes := [10, 10],
    symbols := ["circle", "circle"],
    colorNames := ["UNKNOWN", "UNKNOWN"], colorValues := [0, 0],
    hovers :=
      [ { idPrefix := "m1", msgType := "UNKNOWN", sender := "N/A",
          receiver := "N/A", status := "N/A", cluster := "None",
          template := "None" },
        { idPrefix := "m2", msgType := "UNKNOWN", sender := "N/A",
          receiver := "N/A", status := "N/A", cluster := "None",
          template := "None" } ] }

/-! ## Clustering Engine (`perform_clustering`) -/
/-- Squared euclidean distance between two vectors (the k-means metric). -/
def dist2 (a b : Vec) : ℚ :=
  ((List.zipWith (fun x y => x - y) a b).map (fun d => d * d)).sum

/-- Index of the centroid nearest to `p`, ties to the lowest index (the
k-means assignment step's argmin). -/
def nearestIdx (p : Vec) : List Vec → ℕ
  | [] => 0
  | [_] => 0
  | c :: c2 :: cs =>
    let j := nearestIdx p (c2 :: cs)
    if dist2 p c ≤ dist2 p ((c2 :: cs).getD j []) then 0 else j + 1

/-- Assignment step: each point's label is its nearest centroid's index. -/
def assignLabels (cs : List Vec) (points : List Vec) : List ℕ :=
  points.map (fun p => nearestIdx p cs)

/-- The members of cluster `j` under `labels`. -/
def membersOf (points : List Vec) (labels : List ℕ) (j : ℕ) : List Vec :=
  ((points.zip labels).filter (fun pl => pl.2 == j)).map (fun pl => pl.1)

/-- Update step: each cluster's centroid becomes the mean of its members
(an empty cluster keeps its previous centroid). -/
def updateCentroids (points : List Vec) (labels : List ℕ) (k : ℕ)
    (old : List Vec) : List Vec :=
  (List.range k).map (fun j =>
    let ms := membersOf points labels j
    if ms.isEmpty then old.getD j []
    else scaleVec (1 / (ms.length : ℚ))
      (ms.foldl addVec (List.replicate (dimOf points) 0)))

/-- One degenerate-cluster repair step: if some label in `[0, k)` has no
member, one point is moved out of a cluster that has at least two members
and relabelled with the empty label (the relocation sklearn performs when a
cluster empties, per the design's degenerate-cluster policy). -/
def repairStep (labels : List ℕ) (k : ℕ) : List ℕ :=
  match (List.range k).find? (fun j => labels.count j = 0) with
  | none => labels
  | some j =>
    match (List.range labels.length).find?
        (fun i => 2 ≤ labels.count (labels.getD i 0)) with
    | none => labels
    | some i => labels.set i j

/-- Iterated degenerate-cluster repair; `k` steps suffice because each step
fills one empty label without emptying another. -/
def repairEmpties (k : ℕ) : ℕ → List ℕ → List ℕ
  | 0, labels => labels
  | fuel + 1, labels => repairEmpties k fuel (repairStep labels k)

/-- The fuel-bounded Lloyd loop: assign, repair degenerate clusters, update
centroids, and stop on convergence (unchanged centroids) or when the
iteration budget is exhausted. -/
def kmeansLoop (points : List Vec) (k : ℕ) : ℕ → List Vec → List ℕ × List Vec
  | 0, cs => (repairEmpties k k (assignLabels cs points), cs)
  | fuel + 1, cs =>
    if updateCentroids points (repairEmpties k k (assignLabels cs points)) k cs
        = cs then
      (repairEmpties k k (assignLabels cs points), cs)
    else
      kmeansLoop points k fuel
        (updateCentroids points (repairEmpties k k (assignLabels cs points)) k cs)

/-- `visualize_with_clustering.py:74-94`, `perform_clustering`: choose the
cluster count (auto policy when not supplied), then run seeded k-means and
return the per-record labels and the centroids.

Modelled from the spec: the k-means internals are sklearn library code
outside this repository. Design §4.5 describes them — iterative centroid
relocation with a fixed iteration budget (sklearn `max_iter = 300`),
deterministic seeding (`random_state=42`, modelled as starting from the
first `k` points), degenerate-cluster reinitialisation, and failure when
`n < k` (sklearn: `n_samples should be >= n_clusters`) — and the model
follows that description. -/
def perform_clustering (embeddings : List Vec) (kArg : Option ℕ) :
    Except PyErr (List ℕ × List Vec) :=
  let k := chooseK embeddings.length kArg
  if embeddings.length < k ∨ k = 0 then
    .error (.valueError "n_samples should be >= n_clusters")
  else .ok (kmeansLoop embeddings k 300 (embeddings.take k))

/-- The number of labels in `[0, k)` with no member. -/
def countEmpty (labels : List ℕ) (k : ℕ) : ℕ :=
  ((Finset.range k).filter (fun j => labels.count j = 0)).card

/-! ## Theorems -/

/-- C1: when `perform_clustering` is called without an explicit cluster
count, the count it uses is `clamp(n // 10, 2, 5)` (= `min (max (n/10) 2) 5`),
and in particular every 12-record input selects `k = 2`. -/
theorem perform_clustering_auto_k :
    (∀ n : ℕ, chooseK n none = min (max (n / 10) 2) 5) ∧
      chooseK 12 none = 2 := by
  constructor
  · intro n
    simp only [chooseK]
    omega
  · rfl

/-- C6: at every call site the t-SNE neighborhood-size argument
`min(30, n - 1)` is at most `n - 1`, and consequently `reduce_dimensions`
can never fail with the perplexity-not-less-than-`n_samples` error: that
error condition is unreachable for every record count. -/
theorem tsne_perplexity_clamped :
    (∀ n : ℤ, tsnePerplexity n ≤ n - 1) ∧
      ∀ (emb : List Vec) (nc : ℕ),
        reduce_dimensions emb "tsne" nc ≠
          .error (.valueError "perplexity must be less than n_samples") := by
  constructor
  · intro n
    simp only [tsnePerplexity]
    omega
  · intro emb nc h
    simp only [reduce_dimensions, reduceIte] at h
    split at h
    · simp at h
    · split at h
      · simp at h
      · split at h
        · rename_i h1 h2
          simp only [tsnePerplexity] at h1 h2
          omega
        · simp at h

theorem reduce_dimensions_ok (emb : List Vec) (method : String) (nc : ℕ)
    (out : List Vec) (h : reduce_dimensions emb method nc = .ok out) :
    out = emb.map (fun v => (subVec v (meanVec emb)).take nc) := by
  have hout : out = tsneRows emb nc ∨ out = pcaRows emb nc := by
    simp only [reduce_dimensions] at h
    split at h
    · exact absurd h (by simp)
    · split at h
      · split at h
        · exact absurd h (by simp)
        · split at h
          · exact absurd h (by simp)
          · exact Or.inl (Except.ok.inj h).symm
      · split at h
        · split at h
          · exact absurd h (by simp)
          · exact Or.inr (Except.ok.inj h).symm
        · exact absurd h (by simp)
  rcases hout with h' | h' <;> simpa [tsneRows, pcaRows] using h'

/-- C7: every successful `reduce_dimensions` call returns exactly one
projected point per input vector — the output length equals the input
length — and the `i`-th output row is the fitted per-row map applied to the
`i`-th input vector (order preserved). -/
theorem reduce_dimensions_length (emb : List Vec) (method : String) (nc : ℕ)
    (out : List Vec) (h : reduce_dimensions emb method nc = .ok out) :
    out.length = emb.length ∧
      ∀ i (hi : i < emb.length),
        out.getD i [] = (subVec (emb.getD i []) (meanVec emb)).take nc := by
  have hmap := reduce_dimensions_ok emb method nc out h
  subst hmap
  refine ⟨List.length_map _ _, ?_⟩
  intro i hi
  rw [List.getD_eq_getElem _ _ (by simpa using hi), List.getElem_map,
    List.getD_eq_getElem _ _ hi]

/-- Witness for C7 at a concrete input: three 2-vectors reduced with PCA. -/
theorem reduce_dimensions_length_witness :
    reduce_dimensions [[0, 0], [2, 2], [4, 4]] "pca" 2 =
        .ok [[-2, -2], [0, 0], [2, 2]] ∧
      ([[-2, -2], [0, 0], [2, 2]] : List Vec).length =
          ([[0, 0], [2, 2], [4, 4]] : List Vec).length ∧
        ∀ i (hi : i < ([[0, 0], [2, 2], [4, 4]] : List Vec).length),
          ([[-2, -2], [0, 0], [2, 2]] : List Vec).getD i [] =
            (subVec (([[0, 0], [2, 2], [4, 4]] : List Vec).getD i [])
              (meanVec [[0, 0], [2, 2], [4, 4]])).take 2 := by
  have h : reduce_dimensions [[0, 0], [2, 2], [4, 4]] "pca" 2 =
      .ok [[-2, -2], [0, 0], [2, 2]] := by
    have hp : pcaRows [[0, 0], [2, 2], [4, 4]] 2 = [[-2, -2], [0, 0], [2, 2]] := by
      simp [pcaRows, meanVec, scaleVec, addVec, subVec, dimOf, List.replicate]
      norm_num
    simp [reduce_dimensions, rectangular, dimOf, hp]
  exact ⟨h, reduce_dimensions_length _ _ _ _ h⟩

/-- Witness for C6 at a concrete record count and input. -/
theorem tsne_perplexity_clamped_witness :
    tsnePerplexity 12 ≤ 12 - 1 ∧
      reduce_dimensions [[1]] "tsne" 2 ≠
        .error (.valueError "perplexity must be less than n_samples") :=
  ⟨tsne_perplexity_clamped.1 12, tsne_perplexity_clamped.2 [[1]] 2⟩

/-- C5 counterexample: reducing exactly `targetDimensions = 2` records with
PCA succeeds (sklearn only requires `n_components ≤ min(n_samples,
n_features)`), contradicting the claim that it must fail with
`InsufficientData`. -/
theorem pca_exactly_two_records_ok :
    reduce_dimensions [[1, 0], [0, 1]] "pca" 2 =
      .ok [[1/2, -1/2], [-1/2, 1/2]] := by
  have hp : pcaRows [[1, 0], [0, 1]] 2 = [[1/2, -1/2], [-1/2, 1/2]] := by
    simp [pcaRows, meanVec, scaleVec, addVec, subVec, dimOf, List.replicate]
    norm_num
  simp [reduce_dimensions, rectangular, dimOf, hp]

/-- C5 amended: the PCA branch of `reduce_dimensions` fails exactly when
`n_components` exceeds `min(n_samples, n_features)` — so with feature count
at least `targetDimensions` it fails for fewer than `targetDimensions`
records and succeeds with exactly `targetDimensions` records (not
`targetDimensions + 1` as claimed). -/
theorem pca_requires_targetDimensions_records (emb : List Vec) (nc : ℕ) :
    (min emb.length (dimOf emb) < nc →
        ∀ out, reduce_dimensions emb "pca" nc ≠ .ok out) ∧
      (rectangular emb = true → nc ≤ min emb.length (dimOf emb) →
        reduce_dimensions emb "pca" nc = .ok (pcaRows emb nc)) := by
  constructor
  · intro hlt out h
    by_cases hr : rectangular emb = false
    · simp [reduce_dimensions, hr] at h
    · simp [reduce_dimensions, hr, hlt] at h
  · intro hrect hle
    simp [reduce_dimensions, hrect,
      show ¬ (emb.length ⊓ dimOf emb < nc) by omega]

/-- Witness for C5's amended theorem: two 2-feature records fail for
`n_components = 3` and succeed for `n_components = 2`. -/
theorem pca_requires_targetDimensions_records_witness :
    (min ([[1, 0], [0, 1]] : List Vec).length (dimOf [[1, 0], [0, 1]]) < 3 ∧
        ∀ out, reduce_dimensions [[1, 0], [0, 1]] "pca" 3 ≠ .ok out) ∧
      rectangular [[1, 0], [0, 1]] = true ∧
        2 ≤ min ([[1, 0], [0, 1]] : List Vec).length (dimOf [[1, 0], [0, 1]]) ∧
        reduce_dimensions [[1, 0], [0, 1]] "pca" 2 =
          .ok (pcaRows [[1, 0], [0, 1]] 2) :=
  ⟨⟨by decide, (pca_requires_targetDimensions_records _ _).1 (by decide)⟩,
    by decide, by decide,
    (pca_requires_targetDimensions_records _ _).2 (by decide) (by decide)⟩

/-- C3 counterexample: an error-status response from the embedding store —
a response that is not parseable as a record batch — yields the plain empty
sequence, the same non-error value as a genuine 200-with-no-hits response,
so a failed fetch is not distinguished from absence of data by any error. -/
theorem fetch_vectors_error_status_conflated :
    fetch_vectors_from_elasticsearch (.response 500 .malformed) = .ok [] ∧
      fetch_vectors_from_elasticsearch (.response 200 (.hits [])) = .ok [] := by
  constructor <;> rfl

/-- C3 amended: a non-200 store response (of any body) is logged and
returns the empty sequence, indistinguishable from the no-data result; only
a raised transport exception or an unreadable 200 response aborts the run,
by propagating the raw exception (not a distinct `SourceUnavailable`
value); a readable 200 response yields one record per hit. -/
theorem fetch_vectors_failure_semantics :
    (∀ (status : ℤ) (body : EsBody), status ≠ 200 →
        fetch_vectors_from_elasticsearch (.response status body) = .ok []) ∧
      (∀ e, fetch_vectors_from_elasticsearch (.exn e) = .error e) ∧
      fetch_vectors_from_elasticsearch (.response 200 .malformed) =
          .error (.keyError "hits") ∧
      ∀ hs, fetch_vectors_from_elasticsearch (.response 200 (.hits hs)) =
          .ok (hs.map hitToVector) := by
  refine ⟨?_, fun e => rfl, rfl, fun hs => rfl⟩
  intro status body hst
  simp [fetch_vectors_from_elasticsearch, hst]

/-- Witness for C3's amended theorem at a concrete failing status. -/
theorem fetch_vectors_failure_semantics_witness :
    (500 : ℤ) ≠ 200 ∧
      fetch_vectors_from_elasticsearch (.response 500 .malformed) = .ok [] :=
  ⟨by decide, fetch_vectors_failure_semantics.1 500 .malformed (by decide)⟩

theorem sumCounts_bump (c : List (String × ℕ)) (k : String) :
    sumCounts (bump c k) = sumCounts c + 1 := by
  induction c with
  | nil => rfl
  | cons q rest ih =>
    obtain ⟨k', v⟩ := q
    by_cases h : k' = k
    · simp [bump, h, sumCounts]
      omega
    · simp [bump, h, sumCounts] at ih ⊢
      omega

theorem statsFold_sums (mm : List (String × MsgMeta))
    (vd : List VectorRecord) :
    ∀ acc : List (String × ℕ) × List (String × ℕ) × List (String × ℕ),
      sumCounts (vd.foldl (statsFold mm) acc).1 =
          sumCounts acc.1 + vd.length ∧
        sumCounts (vd.foldl (statsFold mm) acc).2.1 =
            sumCounts acc.2.1 +
              (vd.filter (fun v => v.clusterId.isSome)).length ∧
          sumCounts (vd.foldl (statsFold mm) acc).2.2 =
            sumCounts acc.2.2 + vd.length := by
  induction vd with
  | nil => intro acc; simp
  | cons v rest ih =>
    intro acc
    have step := ih (statsFold mm acc v)
    simp only [List.foldl_cons]
    have h1 : (statsFold mm acc v).1 = bump acc.1
        (match msgFor mm v with
          | some m => m.messageType
          | none => "UNKNOWN") := rfl
    have h3 : (statsFold mm acc v).2.2 = bump acc.2.2
        (match msgFor mm v with
          | some m => m.senderId
          | none => "UNKNOWN") := rfl
    rcases hcl : v.clusterId with _ | cid
    · have h2 : (statsFold mm acc v).2.1 = acc.2.1 := by
        simp [statsFold, hcl]
      refine ⟨?_, ?_, ?_⟩
      · rw [step.1, h1, sumCounts_bump]
        simp
        omega
      · rw [step.2.1, h2]
        simp [List.filter_cons, hcl]
      · rw [step.2.2, h3, sumCounts_bump]
        simp
        omega
    · have h2 : (statsFold mm acc v).2.1 = bump acc.2.1 cid := by
        simp [statsFold, hcl]
      refine ⟨?_, ?_, ?_⟩
      · rw [step.1, h1, sumCounts_bump]
        simp
        omega
      · rw [step.2.1, h2, sumCounts_bump]
        simp [List.filter_cons, hcl]
        omega
      · rw [step.2.2, h3, sumCounts_bump]
        simp
        omega

theorem docTypes_sum (vd : List VectorRecord) :
    ∀ d, sumCounts (vd.foldl (fun d v => bump d v.type) d) =
      sumCounts d + vd.length := by
  induction vd with
  | nil => intro d; simp
  | cons v rest ih =>
    intro d
    simp only [List.foldl_cons]
    rw [ih (bump d v.type), sumCounts_bump]
    simp
    omega

/-- C10: the message-type counts and the document-kind counts of the
statistics view both total the full record count, while the cluster counts
total only the records whose external `clusterId` is present — records with
an absent `clusterId` are excluded from the by-cluster aggregation (so that
total can fall short of the record count). -/
theorem statistics_view_totals (vd : List VectorRecord)
    (mm : List (String × MsgMeta)) :
    sumCounts (create_statistics_view vd mm).type_counts = vd.length ∧
      sumCounts (create_statistics_view vd mm).doc_types = vd.length ∧
      sumCounts (create_statistics_view vd mm).cluster_counts =
        (vd.filter (fun v => v.clusterId.isSome)).length := by
  have h := statsFold_sums mm vd ([], [], [])
  have hd := docTypes_sum vd []
  simp only [create_statistics_view]
  exact ⟨by simpa [sumCounts] using h.1, by simpa [sumCounts] using hd,
    by simpa [sumCounts] using h.2.1⟩

/-- C4 counterexample: with five records fetched successfully, a simulated
network error during the metadata fetch is an uncaught exception, so the
run aborts instead of completing with an empty metadata mapping. -/
theorem metadata_exception_aborts_run :
    runStats (.response 200 (.hits sampleHits))
        (.exn (.requestsError "connection refused")) =
      .error (.requestsError "connection refused") := rfl

theorem statsFold_senders_empty_map (vd : List VectorRecord) :
    ∀ acc : List (String × ℕ) × List (String × ℕ) × List (String × ℕ),
      (vd.foldl (statsFold []) acc).2.2 =
        vd.foldl (fun s _ => bump s "UNKNOWN") acc.2.2 := by
  induction vd with
  | nil => intro acc; rfl
  | cons v rest ih =>
    intro acc
    simp only [List.foldl_cons]
    rw [ih (statsFold [] acc v)]
    rfl

theorem foldl_bump_unknown (vd : List VectorRecord) :
    ∀ m, vd.foldl (fun s _ => bump s "UNKNOWN") [("UNKNOWN", m)] =
      [("UNKNOWN", m + vd.length)] := by
  induction vd with
  | nil => intro m; simp
  | cons v rest ih =>
    intro m
    simp only [List.foldl_cons]
    have hb : bump [("UNKNOWN", m)] "UNKNOWN" = [("UNKNOWN", m + 1)] := by
      simp [bump]
    rw [hb, ih (m + 1)]
    have : m + 1 + rest.length = m + (v :: rest).length := by
      simp
      omega
    rw [this]

theorem sender_counts_empty_map (vd : List VectorRecord) (hne : vd ≠ []) :
    (create_statistics_view vd []).sender_counts =
        [("UNKNOWN", vd.length)] ∧
      (create_statistics_view vd []).top_senders =
        [("UNKNOWN", vd.length)] := by
  have hs : (vd.foldl (statsFold []) ([], [], [])).2.2 =
      [("UNKNOWN", vd.length)] := by
    rw [statsFold_senders_empty_map vd ([], [], [])]
    cases vd with
    | nil => exact absurd rfl hne
    | cons v rest =>
      simp only [List.foldl_cons]
      have h0 : bump [] "UNKNOWN" = [("UNKNOWN", 1)] := rfl
      rw [h0, foldl_bump_unknown rest 1]
      simp
      omega
  constructor
  · simpa [create_statistics_view] using hs
  · simp [create_statistics_view, hs, sortByCountDesc, insertByCountDesc]

/-- C4 amended: when the metadata API answers with an error status (the
failure the code handles) and the embedding fetch succeeds with a nonempty
record set, the run completes with the empty metadata mapping and the
statistics view attributes every fetched record to sender "UNKNOWN"; a
transport-level exception during the metadata fetch, however, propagates
and aborts the run. -/
theorem metadata_error_response_recovers (hs : List EsHit) (status : ℤ)
    (body : ApiBody) (hne : hs ≠ []) (hst : status ≠ 200) :
    ∃ sv, runStats (.response 200 (.hits hs)) (.response status body) =
        .ok (some sv) ∧
      sv.sender_counts = [("UNKNOWN", hs.length)] ∧
      sv.top_senders = [("UNKNOWN", hs.length)] := by
  refine ⟨create_statistics_view (hs.map hitToVector) [], ?_, ?_, ?_⟩
  · have hv : fetch_vectors_from_elasticsearch (.response 200 (.hits hs)) =
        .ok (hs.map hitToVector) := rfl
    have hm : fetch_messages_from_api (.response status body) = .ok [] := by
      simp [fetch_messages_from_api, hst]
    have hemp : (hs.map hitToVector).isEmpty = false := by
      cases hs with
      | nil => exact absurd rfl hne
      | cons a b => rfl
    simp only [runStats, hv, hm, hemp]
    rfl
  · have := (sender_counts_empty_map (hs.map hitToVector)
      (by cases hs with
          | nil => exact absurd rfl hne
          | cons a b => simp)).1
    simpa using this
  · have := (sender_counts_empty_map (hs.map hitToVector)
      (by cases hs with
          | nil => exact absurd rfl hne
          | cons a b => simp)).2
    simpa using this

/-- Witness for C4's amended theorem: five records, metadata API down with
status 500. -/
theorem metadata_error_response_recovers_witness :
    sampleHits ≠ [] ∧ (500 : ℤ) ≠ 200 ∧
      ∃ sv, runStats (.response 200 (.hits sampleHits))
            (.response 500 .malformed) = .ok (some sv) ∧
        sv.sender_counts = [("UNKNOWN", sampleHits.length)] ∧
        sv.top_senders = [("UNKNOWN", sampleHits.length)] :=
  ⟨by decide, by decide,
    metadata_error_response_recovers sampleHits 500 .malformed
      (by decide) (by decide)⟩

theorem sample_reduce_pca :
    reduce_dimensions [[1, 0], [3, 0]] "pca" 2 = .ok [[-1, 0], [1, 0]] := by
  have hp : pcaRows [[1, 0], [3, 0]] 2 = [[-1, 0], [1, 0]] := by
    simp [pcaRows, meanVec, scaleVec, addVec, subVec, dimOf, List.replicate]
    norm_num
  simp [reduce_dimensions, rectangular, dimOf, hp]

theorem sample_reduce_tsne :
    reduce_dimensions [[1, 0], [3, 0]] "tsne" 2 = .ok [[-1, 0], [1, 0]] := by
  have hp : tsneRows [[1, 0], [3, 0]] 2 = [[-1, 0], [1, 0]] := by
    simp [tsneRows, meanVec, scaleVec, addVec, subVec, dimOf, List.replicate]
    norm_num
  norm_num [reduce_dimensions, rectangular, dimOf, tsnePerplexity, hp]

/-- C8 counterexample: on identical upstream data, two runs whose processes
hash strings differently (Python randomizes string hashing per process)
produce different comparison-view artifacts — yet the differing portion,
the color values, is not driven by the stochastic reduction method. -/
theorem comparison_view_hash_dependent :
    create_cluster_comparison (fun _ => 0) sampleVectors [] ≠
      create_cluster_comparison (fun _ => 1) sampleVectors [] := by
  have hemb : sampleVectors.map (fun v => v.embedding) = [[1, 0], [3, 0]] := rfl
  intro h
  simp only [create_cluster_comparison, hemb, sample_reduce_tsne,
    sample_reduce_pca] at h
  simp [sampleVectors, scatterColorName, msgFor] at h

/-- C8 amended: given identical upstream data, every portion of the scatter
and comparison views other than the hash-derived color values is identical
across runs regardless of the process string-hash function (the projection
coordinates are deterministic under the fixed seed); only the
`hash(messageType) % 360` color values depend on the process hash seed. -/
theorem views_hash_independent_except_colors (h1 h2 : String → ℕ)
    (vd : List VectorRecord) (mm : List (String × MsgMeta)) :
    (create_cluster_comparison h1 vd mm).map ComparisonView.stripColors =
        (create_cluster_comparison h2 vd mm).map ComparisonView.stripColors ∧
      ∀ method,
        (create_2d_visualization h1 vd mm method).map
            ScatterView.stripColorValues =
          (create_2d_visualization h2 vd mm method).map
            ScatterView.stripColorValues := by
  constructor
  · rcases hts : reduce_dimensions (vd.map (fun v => v.embedding)) "tsne" 2
      with e | ts
    · simp [create_cluster_comparison, hts, Except.map]
    · rcases hpc : reduce_dimensions (vd.map (fun v => v.embedding)) "pca" 2
        with e | pc
      · simp [create_cluster_comparison, hts, hpc, Except.map]
      · simp [create_cluster_comparison, hts, hpc, Except.map,
          ComparisonView.stripColors]
  · intro method
    rcases hr : reduce_dimensions (vd.map (fun v => v.embedding)) method 2
      with e | red
    · simp [create_2d_visualization, hr, Except.map]
    · simp [create_2d_visualization, hr, Except.map,
        ScatterView.stripColorValues]

/-- C9: a successful scatter-view build renders exactly one point per
fetched embedding record — every per-point list has the fetched record
count as its length — and a record whose `referenceId` matches no metadata
entry still gets its point, with the "UNKNOWN" color key and "N/A" hover
placeholders, rather than being dropped. -/
theorem scatter_view_renders_all_records (pyHash : String → ℕ)
    (vd : List VectorRecord) (mm : List (String × MsgMeta)) (method : String)
    (fig : ScatterView)
    (h : create_2d_visualization pyHash vd mm method = .ok fig) :
    fig.x.length = vd.length ∧ fig.y.length = vd.length ∧
      fig.colorNames.length = vd.length ∧ fig.hovers.length = vd.length ∧
      ∀ i (hi : i < vd.length),
        msgFor mm (vd.get ⟨i, hi⟩) = none →
          fig.colorNames.getD i "" = "UNKNOWN" ∧
            (fig.hovers.getD i dummyHover).sender = "N/A" := by
  rcases hr : reduce_dimensions (vd.map (fun v => v.embedding)) method 2
    with e | red
  · rw [show create_2d_visualization pyHash vd mm method =
        match reduce_dimensions (vd.map (fun v => v.embedding)) method 2 with
        | .error e => .error e
        | .ok reduced =>
          .ok { x := reduced.map (fun r => r.getD 0 0)
                y := reduced.map (fun r => r.getD 1 0)
                sizes := vd.map (fun v => if v.type = "TEMPLATE" then 20 else 10)
                symbols := vd.map (fun v =>
                  if v.type = "TEMPLATE" then "star" else "circle")
                colorNames := vd.map (scatterColorName mm)
                colorValues := vd.map (fun v =>
                  pyHash (scatterColorName mm v) % 360)
                hovers := vd.map (scatterHover mm) } from rfl, hr] at h
    exact absurd h (by simp)
  · have hred := reduce_dimensions_ok _ _ _ _ hr
    have hlen : red.length = vd.length := by
      rw [hred]
      simp
    simp only [create_2d_visualization, hr] at h
    obtain rfl := (Except.ok.inj h).symm
    refine ⟨by simp [hlen], by simp [hlen], by simp, by simp, ?_⟩
    intro i hi hnone
    constructor
    · rw [List.getD_eq_getElem _ _ (by simpa using hi), List.getElem_map]
      simp only [List.get_eq_getElem] at hnone
      simp [scatterColorName, hnone]
    · rw [List.getD_eq_getElem _ _ (by simpa using hi), List.getElem_map]
      simp only [List.get_eq_getElem] at hnone
      simp [scatterHover, hnone]

/-- Witness for C9: two records, neither matching any metadata entry, both
rendered with placeholders. -/
theorem scatter_view_renders_all_records_witness :
    create_2d_visualization (fun _ => 0) sampleVectors [] "pca" =
        .ok sampleScatter ∧
      (sampleScatter.x.length = sampleVectors.length ∧
        sampleScatter.y.length = sampleVectors.length ∧
        sampleScatter.colorNames.length = sampleVectors.length ∧
        sampleScatter.hovers.length = sampleVectors.length ∧
        ∀ i (hi : i < sampleVectors.length),
          msgFor [] (sampleVectors.get ⟨i, hi⟩) = none →
            sampleScatter.colorNames.getD i "" = "UNKNOWN" ∧
              (sampleScatter.hovers.getD i dummyHover).sender = "N/A") := by
  have hemb : sampleVectors.map (fun v => v.embedding) = [[1, 0], [3, 0]] := rfl
  have hfig : create_2d_visualization (fun _ => 0) sampleVectors [] "pca" =
      .ok sampleScatter := by
    simp only [create_2d_visualization, hemb, sample_reduce_pca]
    simp [sampleVectors, sampleScatter, scatterColorName, scatterHover, msgFor,
      (by decide : ("m1" : String).take 12 = "m1"),
      (by decide : ("m2" : String).take 12 = "m2")]
  exact ⟨hfig, scatter_view_renders_all_records _ _ _ _ _ hfig⟩

theorem nearestIdx_lt (p : Vec) :
    ∀ cs : List Vec, cs ≠ [] → nearestIdx p cs < cs.length
  | [], h => absurd rfl h
  | [_], _ => by simp [nearestIdx]
  | c :: c2 :: cs, _ => by
    simp only [nearestIdx]
    split
    · simp
    · have := nearestIdx_lt p (c2 :: cs) (by simp)
      simpa using Nat.succ_lt_succ this

theorem assignLabels_length (cs points : List Vec) :
    (assignLabels cs points).length = points.length := by
  simp [assignLabels]

theorem assignLabels_bound (cs points : List Vec) (hne : cs ≠ []) :
    ∀ l ∈ assignLabels cs points, l < cs.length := by
  intro l hl
  obtain ⟨p, _, rfl⟩ := List.mem_map.1 hl
  exact nearestIdx_lt p cs hne

theorem updateCentroids_length (points : List Vec) (labels : List ℕ) (k : ℕ)
    (old : List Vec) : (updateCentroids points labels k old).length = k := by
  simp [updateCentroids]

theorem count_set_eq (l : List ℕ) :
    ∀ i v a, i < l.length →
      (l.set i v).count a + (if l.getD i 0 = a then 1 else 0) =
        l.count a + (if v = a then 1 else 0) := by
  induction l with
  | nil =>
    intro i v a h
    simp at h
  | cons x xs ih =>
    intro i v a h
    cases i with
    | zero =>
      simp only [List.set_cons_zero, List.getD_cons_zero, List.count_cons,
        beq_iff_eq]
      split_ifs <;> simp_all
    | succ i =>
      have h' : i < xs.length := by simpa using h
      have hih := ih i v a h'
      simp only [List.set_cons_succ, List.getD_cons_succ, List.count_cons,
        beq_iff_eq]
      split_ifs at hih ⊢ <;> simp_all

theorem exists_duplicate_label (labels : List ℕ) (k : ℕ)
    (hlen : k ≤ labels.length) (hbound : ∀ l ∈ labels, l < k)
    (j : ℕ) (hj : j < k) (hempty : labels.count j = 0) :
    ∃ v, 2 ≤ labels.count v := by
  by_contra hno
  push_neg at hno
  have hnodup : labels.Nodup := List.nodup_iff_count_le_one.2 fun a => by
    have := hno a
    omega
  have hsub : labels.toFinset ⊆ (Finset.range k).erase j := by
    intro x hx
    rw [List.mem_toFinset] at hx
    refine Finset.mem_erase.2 ⟨?_, Finset.mem_range.2 (hbound x hx)⟩
    intro hxj
    rw [hxj] at hx
    rw [List.count_eq_zero] at hempty
    exact hempty hx
  have hcard : labels.toFinset.card ≤ k - 1 := by
    calc labels.toFinset.card ≤ ((Finset.range k).erase j).card :=
          Finset.card_le_card hsub
      _ = k - 1 := by
          rw [Finset.card_erase_of_mem (Finset.mem_range.2 hj),
            Finset.card_range]
  have heq : labels.toFinset.card = labels.length :=
    List.toFinset_card_of_nodup hnodup
  omega

theorem repairStep_length (labels : List ℕ) (k : ℕ) :
    (repairStep labels k).length = labels.length := by
  unfold repairStep
  split
  · rfl
  · split
    · rfl
    · exact List.length_set labels _ _

theorem repairStep_bound (labels : List ℕ) (k : ℕ)
    (hbound : ∀ l ∈ labels, l < k) :
    ∀ l ∈ repairStep labels k, l < k := by
  unfold repairStep
  split
  · exact hbound
  · rename_i j hfind
    split
    · exact hbound
    · rename_i i hdon
      intro l hl
      rcases List.mem_or_eq_of_mem_set hl with hmem | rfl
      · exact hbound l hmem
      · exact List.mem_range.1 (List.mem_of_find?_eq_some hfind)

theorem repairStep_of_no_empty (labels : List ℕ) (k : ℕ)
    (h : countEmpty labels k = 0) : repairStep labels k = labels := by
  have hfind : (List.range k).find? (fun j => labels.count j = 0) = none := by
    rw [List.find?_eq_none]
    intro x hx
    simp only [decide_eq_true_eq]
    intro hc
    have hmem : x ∈ (Finset.range k).filter (fun j => labels.count j = 0) :=
      Finset.mem_filter.2 ⟨Finset.mem_range.2 (List.mem_range.1 hx), hc⟩
    rw [countEmpty, Finset.card_eq_zero] at h
    rw [h] at hmem
    exact absurd hmem (Finset.not_mem_empty x)
  unfold repairStep
  rw [hfind]

theorem repairStep_countEmpty (labels : List ℕ) (k : ℕ)
    (hlen : k ≤ labels.length) (hbound : ∀ l ∈ labels, l < k)
    (hpos : 0 < countEmpty labels k) :
    countEmpty (repairStep labels k) k + 1 = countEmpty labels k := by
  rcases hfind : (List.range k).find? (fun j => labels.count j = 0)
    with _ | j
  · exfalso
    obtain ⟨j, hj⟩ := Finset.card_pos.1 hpos
    obtain ⟨hjr, hjc⟩ := Finset.mem_filter.1 hj
    have := List.find?_eq_none.1 hfind j
      (List.mem_range.2 (Finset.mem_range.1 hjr))
    simp [hjc] at this
  · have hj : labels.count j = 0 := by
      simpa using List.find?_some hfind
    have hjk : j < k :=
      List.mem_range.1 (List.mem_of_find?_eq_some hfind)
    rcases hdon : (List.range labels.length).find?
        (fun i => 2 ≤ labels.count (labels.getD i 0)) with _ | i
    · exfalso
      obtain ⟨v, hv⟩ := exists_duplicate_label labels k hlen hbound j hjk hj
      have hvmem : v ∈ labels := List.count_pos_iff.1 (by omega)
      obtain ⟨idx, hidx, hval⟩ := List.mem_iff_getElem.1 hvmem
      have hnone := List.find?_eq_none.1 hdon idx (List.mem_range.2 hidx)
      rw [List.getD_eq_getElem labels 0 hidx, hval] at hnone
      simp at hnone
      omega
    · have hdi : 2 ≤ labels.count (labels.getD i 0) := by
        simpa using List.find?_some hdon
      have hik : i < labels.length :=
        List.mem_range.1 (List.mem_of_find?_eq_some hdon)
      have holdne : labels.getD i 0 ≠ j := by
        intro he
        rw [he, hj] at hdi
        omega
      have hcj : (labels.set i j).count j = 1 := by
        have h5 := count_set_eq labels i j j hik
        rw [if_neg holdne, if_pos rfl] at h5
        omega
      have hcold : (labels.set i j).count (labels.getD i 0) + 1 =
          labels.count (labels.getD i 0) := by
        have h5 := count_set_eq labels i j (labels.getD i 0) hik
        rw [if_pos rfl, if_neg (Ne.symm holdne)] at h5
        omega
      have hother : ∀ a, a ≠ j → a ≠ labels.getD i 0 →
          (labels.set i j).count a = labels.count a := by
        intro a haj hao
        have h5 := count_set_eq labels i j a hik
        rw [if_neg (Ne.symm hao), if_neg (Ne.symm haj)] at h5
        omega
      have hrs : repairStep labels k = labels.set i j := by
        simp only [repairStep, hfind, hdon]
      have hset : (Finset.range k).filter
            (fun a => (labels.set i j).count a = 0) =
          ((Finset.range k).filter (fun a => labels.count a = 0)).erase j := by
        ext x
        simp only [Finset.mem_filter, Finset.mem_erase, Finset.mem_range]
        constructor
        · rintro ⟨hxk, hxc⟩
          by_cases hxj : x = j
          · rw [hxj, hcj] at hxc
            omega
          · by_cases hxo : x = labels.getD i 0
            · rw [hxo] at hxc
              omega
            · rw [hother x hxj hxo] at hxc
              exact ⟨hxj, hxk, hxc⟩
        · rintro ⟨hxj, hxk, hxc⟩
          by_cases hxo : x = labels.getD i 0
          · rw [hxo] at hxc
            omega
          · rw [hrs] at *
            exact ⟨hxk, by rw [hother x hxj hxo]; exact hxc⟩
      have hjfilter : j ∈ (Finset.range k).filter
          (fun a => labels.count a = 0) :=
        Finset.mem_filter.2 ⟨Finset.mem_range.2 hjk, hj⟩
      rw [countEmpty, hrs, hset, Finset.card_erase_of_mem hjfilter]
      have : 0 < ((Finset.range k).filter
          (fun a => labels.count a = 0)).card := Finset.card_pos.2 ⟨j, hjfilter⟩
      rw [countEmpty]
      omega

theorem repairEmpties_length (k : ℕ) :
    ∀ fuel labels, (repairEmpties k fuel labels).length = labels.length := by
  intro fuel
  induction fuel with
  | zero => intro labels; rfl
  | succ fuel ih =>
    intro labels
    simp only [repairEmpties]
    rw [ih (repairStep labels k), repairStep_length]

theorem repairEmpties_bound (k : ℕ) :
    ∀ fuel labels, (∀ l ∈ labels, l < k) →
      ∀ l ∈ repairEmpties k fuel labels, l < k := by
  intro fuel
  induction fuel with
  | zero => intro labels h; exact h
  | succ fuel ih =>
    intro labels h
    simp only [repairEmpties]
    exact ih (repairStep labels k) (repairStep_bound labels k h)

theorem repairEmpties_no_empty (k : ℕ) :
    ∀ fuel labels, k ≤ labels.length → (∀ l ∈ labels, l < k) →
      countEmpty labels k ≤ fuel →
      countEmpty (repairEmpties k fuel labels) k = 0 := by
  intro fuel
  induction fuel with
  | zero =>
    intro labels _ _ hle
    simpa [repairEmpties] using Nat.le_zero.1 hle
  | succ fuel ih =>
    intro labels hlen hbound hle
    simp only [repairEmpties]
    by_cases h0 : countEmpty labels k = 0
    · rw [repairStep_of_no_empty labels k h0]
      exact ih labels hlen hbound (by omega)
    · have hpos : 0 < countEmpty labels k := Nat.pos_of_ne_zero h0
      have hdec := repairStep_countEmpty labels k hlen hbound hpos
      exact ih (repairStep labels k)
        (by rw [repairStep_length]; exact hlen)
        (repairStep_bound labels k hbound) (by omega)

theorem countEmpty_le (labels : List ℕ) (k : ℕ) : countEmpty labels k ≤ k := by
  calc countEmpty labels k ≤ (Finset.range k).card :=
        Finset.card_filter_le _ _
    _ = k := Finset.card_range k

theorem no_empty_mem (labels : List ℕ) (k : ℕ) (h : countEmpty labels k = 0)
    (j : ℕ) (hj : j < k) : j ∈ labels := by
  by_contra hmem
  have hc : labels.count j = 0 := List.count_eq_zero.2 hmem
  have hin : j ∈ (Finset.range k).filter (fun a => labels.count a = 0) :=
    Finset.mem_filter.2 ⟨Finset.mem_range.2 hj, hc⟩
  rw [countEmpty, Finset.card_eq_zero] at h
  rw [h] at hin
  exact absurd hin (Finset.not_mem_empty j)

theorem kmeansLoop_shape (points : List Vec) (k : ℕ) :
    ∀ fuel cs, cs.length = k →
      ∃ cs0 : List Vec, cs0.length = k ∧
        (kmeansLoop points k fuel cs).1 =
          repairEmpties k k (assignLabels cs0 points) := by
  intro fuel
  induction fuel with
  | zero => intro cs hcs; exact ⟨cs, hcs, rfl⟩
  | succ fuel ih =>
    intro cs hcs
    simp only [kmeansLoop]
    split
    · exact ⟨cs, hcs, rfl⟩
    · exact ih _ (updateCentroids_length _ _ _ _)

/-- C2: every successful `perform_clustering` run produces exactly one
label per input record (the label list has the input's length), every label
lies in `[0, k)` for the cluster count `k` it used, and every label in
`[0, k)` is assigned to at least one record: the distinct labels are
exactly `{0, ..., k-1}` with no empty cluster and no dropped record. -/
theorem perform_clustering_label_invariant (embeddings : List Vec)
    (kArg : Option ℕ) (labels : List ℕ) (cents : List Vec)
    (h : perform_clustering embeddings kArg = .ok (labels, cents)) :
    labels.length = embeddings.length ∧
      (∀ l ∈ labels, l < chooseK embeddings.length kArg) ∧
      ∀ j < chooseK embeddings.length kArg, j ∈ labels := by
  simp only [perform_clustering] at h
  split at h
  · exact absurd h (by simp)
  · rename_i hcond
    push_neg at hcond
    obtain ⟨hnk, hk0⟩ := hcond
    have hkle : chooseK embeddings.length kArg ≤ embeddings.length := hnk
    have hpair := Except.ok.inj h
    have htake : (embeddings.take (chooseK embeddings.length kArg)).length =
        chooseK embeddings.length kArg := by
      simp [hkle]
    obtain ⟨cs0, hcs0, hshape⟩ := kmeansLoop_shape embeddings
      (chooseK embeddings.length kArg) 300 _ htake
    have hlabels : labels =
        repairEmpties (chooseK embeddings.length kArg)
          (chooseK embeddings.length kArg) (assignLabels cs0 embeddings) := by
      rw [← hshape, hpair]
    have hne : cs0 ≠ [] := by
      intro he
      rw [he] at hcs0
      exact hk0 hcs0.symm
    have hblen : (assignLabels cs0 embeddings).length = embeddings.length :=
      assignLabels_length cs0 embeddings
    have hbound : ∀ l ∈ assignLabels cs0 embeddings,
        l < chooseK embeddings.length kArg := by
      have hb := assignLabels_bound cs0 embeddings hne
      rw [hcs0] at hb
      exact hb
    refine ⟨?_, ?_, ?_⟩
    · rw [hlabels, repairEmpties_length, hblen]
    · rw [hlabels]
      exact repairEmpties_bound _ _ _ hbound
    · intro j hj
      rw [hlabels]
      exact no_empty_mem _ _
        (repairEmpties_no_empty _ _ _ (by rw [hblen]; exact hkle) hbound
          (countEmpty_le _ _)) j hj

theorem kmeansLoop_converged (points : List Vec) (k fuel : ℕ) (cs : List Vec)
    (hconv : updateCentroids points
        (repairEmpties k k (assignLabels cs points)) k cs = cs) :
    kmeansLoop points k (fuel + 1) cs =
      (repairEmpties k k (assignLabels cs points), cs) := by
  simp only [kmeansLoop, hconv]
  simp

theorem sample_clustering_eval :
    perform_clustering [[0], [10]] (some 2) = .ok ([0, 1], [[0], [10]]) := by
  have hassign : assignLabels [[0], [10]] [[0], [10]] = [0, 1] := by
    norm_num [assignLabels, nearestIdx, dist2]
  have hrepair : repairEmpties 2 2 (assignLabels [[0], [10]] [[0], [10]])
      = [0, 1] := by
    rw [hassign]
    rfl
  have hupd : updateCentroids [[0], [10]] [0, 1] 2 [[0], [10]] = [[0], [10]] := by
    simp [updateCentroids, membersOf, dimOf, scaleVec, addVec, List.replicate,
      List.range_succ]
  have hloop : kmeansLoop [[0], [10]] 2 300 [[0], [10]] =
      ([0, 1], [[0], [10]]) := by
    have h1 : kmeansLoop [[0], [10]] 2 (299 + 1) [[0], [10]] =
        (repairEmpties 2 2 (assignLabels [[0], [10]] [[0], [10]]), [[0], [10]]) :=
      kmeansLoop_converged _ _ _ _ (by rw [hrepair]; exact hupd)
    rw [show (300 : ℕ) = 299 + 1 from rfl, h1, hrepair]
  simp [perform_clustering, chooseK, hloop]

/-- Witness for C2: two 1-dimensional records clustered with `k = 2` yield
labels `[0, 1]` — one label per record, labels exactly `{0, 1}`, no empty
cluster. -/
theorem perform_clustering_label_invariant_witness :
    perform_clustering [[0], [10]] (some 2) = .ok ([0, 1], [[0], [10]]) ∧
      (([0, 1] : List ℕ).length = ([[0], [10]] : List Vec).length ∧
        (∀ l ∈ ([0, 1] : List ℕ), l < chooseK ([[0], [10]] : List Vec).length (some 2)) ∧
        ∀ j < chooseK ([[0], [10]] : List Vec).length (some 2), j ∈ ([0, 1] : List ℕ)) :=
  ⟨sample_clustering_eval,
    perform_clustering_label_invariant _ _ _ _ sample_clustering_eval⟩
